import Mathlib

/-!
Shallow embedding of `src/util/update_sparta.py` from the d3fend-ontology
repository: the SPARTA STIX-to-RDF translation module.

Modelling conventions: a Python dict key that may be absent becomes an
`Option` field (`none` means the key is missing); `rec[key]` on a missing key,
`list[0]` on an empty list, and method calls on `None` become `Except.error`
with the corresponding Python exception; an RDF graph is modelled as the list
of triples in emission order (rdflib graphs are triple sets, recovered with
`List.toFinset` where set semantics matter).
-/

namespace UpdateSparta

/-- Python exceptions the module can raise. The payload of `keyError` is the
missing key; the payloads of `attributeError` and `typeError` are the Python
message texts. -/
inductive PyErr where
  | keyError : String → PyErr
  | indexError : PyErr
  | attributeError : String → PyErr
  | typeError : String → PyErr
  deriving DecidableEq, Repr

/-- One STIX external reference: a dict with optional keys `source_name`,
`external_id` and `url`. -/
structure Ref where
  source_name : Option String
  external_id : Option String
  url : Option String
  deriving DecidableEq, Repr

/-- One entry of a STIX `kill_chain_phases` list. -/
structure KillChainPhase where
  kill_chain_name : String
  phase_name : String
  deriving DecidableEq, Repr

/-- A STIX record as the module reads it: `id`, `type`, `name` and
`description` are always present on the records the module touches;
`external_references`, `kill_chain_phases` and `x_aerospace_did_layer`
may be absent. -/
structure Record where
  id : String
  type : String
  name : String
  description : String
  external_references : Option (List Ref)
  kill_chain_phases : Option (List KillChainPhase)
  x_aerospace_did_layer : Option String
  deriving DecidableEq, Repr

/-- A STIX relationship object, reduced to the fields the module reads. -/
structure SRel where
  source_ref : String
  target_ref : String
  deriving DecidableEq, Repr

/-- The stix2 `MemoryStore`: the loaded objects plus the relationship
objects. -/
structure MemoryStore where
  objects : List Record
  rels : List SRel
  deriving DecidableEq, Repr

/-- An RDF node: a URI reference or a literal. -/
inductive RDFNode where
  | uri : String → RDFNode
  | lit : String → RDFNode
  deriving DecidableEq, Repr

/-- An RDF triple (the subject and predicate are always URIs here). -/
structure Triple where
  s : String
  p : String
  o : RDFNode
  deriving DecidableEq, Repr

/-- The double-quote character. -/
def dq : Char := Char.ofNat 34

/-- The single-quote character. -/
def sq : Char := Char.ofNat 39

/-- Python `s.replace(" ", "")`: remove every space character. -/
def removeSpaces (s : String) : String :=
  String.mk (s.toList.filter (fun c => c != ' '))

/-- Python `s.split(".")[0]`: the text before the first dot (the whole
string when there is no dot). -/
def beforeFirstDot (s : String) : String :=
  String.mk (s.toList.takeWhile (fun c => c != '.'))

/-- Python `"." in s`. -/
def hasDot (s : String) : Bool := s.toList.contains '.'

/-- Python `s.startswith(p)`. -/
def pyStartsWith (s p : String) : Bool := List.isPrefixOf p.toList s.toList

/-- Trim Python whitespace from both ends of a character list. -/
def stripChars (l : List Char) : List Char :=
  ((l.dropWhile Char.isWhitespace).reverse.dropWhile Char.isWhitespace).reverse

/-- Python `s.strip()`. -/
def pyStrip (s : String) : String := String.mk (stripChars s.toList)

/-- Substring test on character lists. -/
def infixCheck (pat : List Char) : List Char → Bool
  | [] => pat.isEmpty
  | c :: cs => List.isPrefixOf pat (c :: cs) || infixCheck pat cs

/-- Python `pat in s` for strings. -/
def isSubstrOf (pat s : String) : Bool := infixCheck pat.toList s.toList

/-- Replace every non-overlapping occurrence of `pat` (non-empty) by `rep`,
scanning left to right, as Python `str.replace` does.  Every step consumes at
least one input character and one unit of fuel, so fuel equal to the input
length suffices; the fuel only makes the recursion structural. -/
def replaceCharsAux (pat rep : List Char) : Nat → List Char → List Char
  | 0, l => l
  | _ + 1, [] => []
  | fuel + 1, c :: cs =>
    if List.isPrefixOf pat (c :: cs) ∧ pat.isEmpty = false then
      rep ++ replaceCharsAux pat rep fuel (List.drop (pat.length - 1) cs)
    else
      c :: replaceCharsAux pat rep fuel cs

/-- Python `s.replace(pat, rep)` (all the patterns used by the module are
non-empty). -/
def pyReplace (s pat rep : String) : String :=
  String.mk (replaceCharsAux pat.toList rep.toList s.toList.length s.toList)

/-- Equality of `Except` values is decidable when it is on both sides. -/
instance {ε α : Type} [DecidableEq ε] [DecidableEq α] : DecidableEq (Except ε α) := fun a b =>
  match a, b with
  | Except.ok x, Except.ok y =>
    if h : x = y then Decidable.isTrue (by rw [h])
    else Decidable.isFalse (fun hc => h (Except.ok.inj hc))
  | Except.error x, Except.error y =>
    if h : x = y then Decidable.isTrue (by rw [h])
    else Decidable.isFalse (fun hc => h (Except.error.inj hc))
  | Except.ok _, Except.error _ => Decidable.isFalse (fun hc => Except.noConfusion hc)
  | Except.error _, Except.ok _ => Decidable.isFalse (fun hc => Except.noConfusion hc)

/-- The D3FEND namespace `D3F`. -/
def d3fNS : String := "http://d3fend.mitre.org/ontologies/d3fend.owl#"

/-- `D3F[x]`: a URI in the D3FEND namespace. -/
def d3f (x : String) : String := d3fNS ++ x

/-- `RDF.type`. -/
def rdfType : String := "http://www.w3.org/1999/02/22-rdf-syntax-ns#type"

/-- `RDFS.label`. -/
def rdfsLabel : String := "http://www.w3.org/2000/01/rdf-schema#label"

/-- `RDFS.seeAlso`. -/
def rdfsSeeAlso : String := "http://www.w3.org/2000/01/rdf-schema#seeAlso"

/-- `RDFS.subClassOf`. -/
def rdfsSubClassOf : String := "http://www.w3.org/2000/01/rdf-schema#subClassOf"

/-- `OWL.Class`. -/
def owlClass : String := "http://www.w3.org/2002/07/owl#Class"

/-- `OWL.NamedIndividual`. -/
def owlNamedIndividual : String := "http://www.w3.org/2002/07/owl#NamedIndividual"

/-- The module-level dict `aerospace_did_layer_to_threat`, as a lookup
function (`none` models a key that is absent from the dict). -/
def aerospace_did_layer_to_threat (layer : String) : Option String :=
  if layer = "Prevention" then some "PreventionThreat"
  else if layer = "Crypto" then some "CryptoThreat"
  else if layer = "Data" then some "DataThreat"
  else if layer = "S/C Software" then some "SpacecraftSoftwareThreat"
  else if layer = "Ground" then some "GroundThreat"
  else if layer = "IDS/IPS" then some "IntrusionThreat"
  else if layer = "SBC" then some "SingleBoardComputerThreat"
  else if layer = "Comms Link" then some "CommsLinkThreat"
  else none

/-- The generator inside `get_sparta_id`: the first `external_id` whose
reference has `source_name == "sparta"` and whose id does not start with
`"D3"`.  When a reference has `source_name == "sparta"` but no
`external_id`, Python evaluates `None.startswith("D3")` and raises
`AttributeError`. -/
def findSpartaId : List Ref → Except PyErr (Option String)
  | [] => Except.ok none
  | r :: rs =>
    if r.source_name = some "sparta" then
      match r.external_id with
      | none =>
        Except.error (PyErr.attributeError "NoneType object has no attribute startswith")
      | some eid =>
        if pyStartsWith eid "D3" then findSpartaId rs else Except.ok (some eid)
    else findSpartaId rs

/-- `get_sparta_id(tech)`: `tech["external_references"]` raises `KeyError`
when the key is absent; otherwise scan the references with `findSpartaId`. -/
def get_sparta_id (tech : Record) : Except PyErr (Option String) :=
  match tech.external_references with
  | none => Except.error (PyErr.keyError "external_references")
  | some refs => findSpartaId refs

/-- The `sparta_url` generator shared by all three translators: the `url`
value (possibly `None`) of the first reference with
`source_name == "sparta"`, or `None` when there is no such reference. -/
def findSpartaUrl : List Ref → Option String
  | [] => none
  | r :: rs => if r.source_name = some "sparta" then r.url else findSpartaUrl rs

/-- rdflib `URIRef(value)`: the constructor validates `value` by scanning it
for invalid URI characters (`_is_valid_uri` iterates over the value), so
`URIRef(None)` raises `TypeError` before any triple is built. -/
def pyURIRef : Option String → Except PyErr RDFNode
  | some u => Except.ok (RDFNode.uri u)
  | none => Except.error (PyErr.typeError "argument of type NoneType is not iterable")

/-- The subclass-of triples of `add_technique_to_graph`: one edge to the
dotted parent when the SPARTA id contains a period, else one edge per
kill-chain phase, to `D3F` of `("SPARTA" + phase_name + " Technique")` with
every space removed. -/
def techSubClassTriples (sparta_id : String) (tech : Record) : List Triple :=
  if hasDot sparta_id then
    [Triple.mk (d3f sparta_id) rdfsSubClassOf (RDFNode.uri (d3f (beforeFirstDot sparta_id)))]
  else
    (tech.kill_chain_phases.getD []).map (fun obj =>
      Triple.mk (d3f sparta_id) rdfsSubClassOf
        (RDFNode.uri (d3f (removeSpaces ("SPARTA" ++ obj.phase_name ++ " Technique")))))

/-- `add_technique_to_graph(src, g, tech)`: the triples added to `g`, in
emission order, or the Python exception that aborts the call. -/
def add_technique_to_graph (src : MemoryStore) (tech : Record) : Except PyErr (List Triple) :=
  match get_sparta_id tech with
  | Except.error e => Except.error e
  | Except.ok none => Except.ok []
  | Except.ok (some sparta_id) =>
    match tech.external_references with
    | none => Except.error (PyErr.keyError "external_references")
    | some refs =>
      match pyURIRef (findSpartaUrl refs) with
      | Except.error e => Except.error e
      | Except.ok urlNode =>
        Except.ok
          ([Triple.mk (d3f sparta_id) rdfType (RDFNode.uri (d3f "SPARTATechnique")),
            Triple.mk (d3f sparta_id) rdfType (RDFNode.uri owlClass),
            Triple.mk (d3f sparta_id) rdfType (RDFNode.uri owlNamedIndividual),
            Triple.mk (d3f sparta_id) rdfsLabel (RDFNode.lit (pyStrip tech.name ++ " - SPARTA")),
            Triple.mk (d3f sparta_id) rdfsSeeAlso urlNode,
            Triple.mk (d3f sparta_id) (d3f "definition") (RDFNode.lit tech.description),
            Triple.mk (d3f sparta_id) (d3f "sparta-id") (RDFNode.lit sparta_id)]
           ++ techSubClassTriples sparta_id tech)

/-- `src.relationships(obj)` in stix2: the relationship objects whose
`source_ref` is `obj.id`, followed by those whose `target_ref` is `obj.id`. -/
def MemoryStore.relationshipsOf (src : MemoryStore) (obj : Record) : List SRel :=
  src.rels.filter (fun r => r.source_ref == obj.id)
    ++ src.rels.filter (fun r => r.target_ref == obj.id)

/-- `src.get(i)` in stix2: the first stored object with that id, or `None`. -/
def MemoryStore.getObj (src : MemoryStore) (i : String) : Option Record :=
  src.objects.find? (fun r => r.id == i)

/-- `target["external_references"][0]["external_id"]` with Python bracket
semantics: `KeyError` when a key is absent, `IndexError` on an empty list. -/
def firstRefExternalId (target : Record) : Except PyErr String :=
  match target.external_references with
  | none => Except.error (PyErr.keyError "external_references")
  | some [] => Except.error PyErr.indexError
  | some (r :: _) =>
    match r.external_id with
    | none => Except.error (PyErr.keyError "external_id")
    | some e => Except.ok e

/-- The relationship loop of `add_threat_to_graph`: one `d3f:related` edge
per relationship, to `D3F` of the `external_id` of the first external
reference of the target record (`src.get` returning `None` makes the subsequent
subscript raise `TypeError`). -/
def threatRelTriples (src : MemoryStore) (sparta_id : String) :
    List SRel → Except PyErr (List Triple)
  | [] => Except.ok []
  | rel :: rest =>
    match src.getObj rel.target_ref with
    | none => Except.error (PyErr.typeError "NoneType object is not subscriptable")
    | some target =>
      match firstRefExternalId target with
      | Except.error e => Except.error e
      | Except.ok eid =>
        match threatRelTriples src sparta_id rest with
        | Except.error e => Except.error e
        | Except.ok ts =>
          Except.ok (Triple.mk (d3f sparta_id) (d3f "related") (RDFNode.uri (d3f eid)) :: ts)

/-- One step of Python `re.sub` with the threat-description pattern
`^\[" | "\]$ | \[quote | quote\]$` (the second and fourth alternatives are
anchored at the end of the string, the first at the start); every
non-overlapping match is deleted, scanning left to right. -/
def cleanDescAux : Bool → List Char → List Char
  | _, [] => []
  | _, [c] => [c]
  | atStart, c1 :: c2 :: rest =>
    if atStart = true ∧ c1 = '[' ∧ c2 = dq then cleanDescAux false rest
    else if c1 = dq ∧ c2 = ']' ∧ rest = [] then []
    else if c1 = '[' ∧ c2 = sq then cleanDescAux false rest
    else if c1 = sq ∧ c2 = ']' ∧ rest = [] then []
    else c1 :: cleanDescAux false (c2 :: rest)

/-- The `re.sub(...)` cleanup applied to the description of a threat. -/
def cleanDescription (s : String) : String := String.mk (cleanDescAux true s.toList)

/-- `add_threat_to_graph(src, g, threat)`: the triples added to `g`, in
emission order, or the Python exception that aborts the call.  The
defense-in-depth lookup `aerospace_did_layer_to_threat[threat["x_aerospace_did_layer"]]`
raises `KeyError "x_aerospace_did_layer"` when the field is absent and
`KeyError layer` when the layer value is not a key of the dict. -/
def add_threat_to_graph (src : MemoryStore) (threat : Record) : Except PyErr (List Triple) :=
  match get_sparta_id threat with
  | Except.error e => Except.error e
  | Except.ok none => Except.ok []
  | Except.ok (some sparta_id) =>
    match threat.external_references with
    | none => Except.error (PyErr.keyError "external_references")
    | some refs =>
      match pyURIRef (findSpartaUrl refs) with
      | Except.error e => Except.error e
      | Except.ok urlNode =>
        match threat.x_aerospace_did_layer with
        | none => Except.error (PyErr.keyError "x_aerospace_did_layer")
        | some layer =>
          match aerospace_did_layer_to_threat layer with
          | none => Except.error (PyErr.keyError layer)
          | some threatClass =>
            match threatRelTriples src sparta_id (src.relationshipsOf threat) with
            | Except.error e => Except.error e
            | Except.ok relTs =>
              Except.ok
                ([Triple.mk (d3f sparta_id) rdfType (RDFNode.uri (d3f "SPARTAThreat")),
                  Triple.mk (d3f sparta_id) rdfType (RDFNode.uri owlClass),
                  Triple.mk (d3f sparta_id) rdfType (RDFNode.uri owlNamedIndividual),
                  Triple.mk (d3f sparta_id) rdfsLabel (RDFNode.lit threat.name),
                  Triple.mk (d3f sparta_id) rdfsSeeAlso urlNode,
                  Triple.mk (d3f sparta_id) (d3f "definition")
                    (RDFNode.lit (cleanDescription threat.description)),
                  Triple.mk (d3f sparta_id) (d3f "sparta-id") (RDFNode.lit sparta_id),
                  Triple.mk (d3f sparta_id) rdfsSubClassOf (RDFNode.uri (d3f threatClass))]
                 ++ relTs)

/-- The `d3fend_id` generator of `add_countermeasure_to_graph`: the first
`external_id` whose reference has `source_name == "D3FEND"`; bracket access
means a reference missing either key raises `KeyError`. -/
def findD3FENDId : List Ref → Except PyErr (Option String)
  | [] => Except.ok none
  | r :: rs =>
    match r.source_name with
    | none => Except.error (PyErr.keyError "source_name")
    | some sn =>
      if sn = "D3FEND" then
        match r.external_id with
        | none => Except.error (PyErr.keyError "external_id")
        | some e => Except.ok (some e)
      else findD3FENDId rs

/-- The `d3fend_name` generator of `add_countermeasure_to_graph`: the first
`url` whose reference has `source_name == "D3FEND"`, with the same bracket
semantics. -/
def findD3FENDUrl : List Ref → Except PyErr (Option String)
  | [] => Except.ok none
  | r :: rs =>
    match r.source_name with
    | none => Except.error (PyErr.keyError "source_name")
    | some sn =>
      if sn = "D3FEND" then
        match r.url with
        | none => Except.error (PyErr.keyError "url")
        | some u => Except.ok (some u)
      else findD3FENDUrl rs

/-- The relationship loop of `add_countermeasure_to_graph`: an `enabled-by`
edge when the target carries a D3FEND reference (its url stripped of the
technique URL prefix and of every slash), else a `counters` edge when the
target is an `attack-pattern` and the countermeasure id is not the sentinel
`"CM0000"`, else nothing. -/
def cmRelTriples (src : MemoryStore) (sparta_id : String) :
    List SRel → Except PyErr (List Triple)
  | [] => Except.ok []
  | rel :: rest =>
    match src.getObj rel.target_ref with
    | none => Except.error (PyErr.typeError "NoneType object is not subscriptable")
    | some target =>
      match target.external_references with
      | none => Except.error (PyErr.keyError "external_references")
      | some trefs =>
        match findD3FENDId trefs with
        | Except.error e => Except.error e
        | Except.ok (some _) =>
          match findD3FENDUrl trefs with
          | Except.error e => Except.error e
          | Except.ok none =>
            Except.error (PyErr.attributeError "NoneType object has no attribute replace")
          | Except.ok (some u) =>
            match cmRelTriples src sparta_id rest with
            | Except.error e => Except.error e
            | Except.ok ts =>
              Except.ok
                (Triple.mk (d3f sparta_id) (d3f "enabled-by")
                  (RDFNode.uri (d3f (pyReplace
                    (pyReplace u "https://d3fend.mitre.org/technique/d3f:" "") "/" ""))) :: ts)
        | Except.ok none =>
          if target.type = "attack-pattern" ∧ sparta_id ≠ "CM0000" then
            match firstRefExternalId target with
            | Except.error e => Except.error e
            | Except.ok eid =>
              match cmRelTriples src sparta_id rest with
              | Except.error e => Except.error e
              | Except.ok ts =>
                Except.ok
                  (Triple.mk (d3f sparta_id) (d3f "counters") (RDFNode.uri (d3f eid)) :: ts)
          else cmRelTriples src sparta_id rest

/-- The NIST-control loop of `add_countermeasure_to_graph`: for every own
external reference whose `url` starts with the control-reference prefix, one
`d3f:related` edge to `D3F` of `"NIST_SP_800-53_R5_"` plus the reference
`external_id` with `"("` replaced by `"_"` and `")"` replaced by `""`.
A reference with no `url` makes `None.startswith` raise `AttributeError`,
and a matching reference with no `external_id` makes `None.replace` raise. -/
def nistTriples (sparta_id : String) : List Ref → Except PyErr (List Triple)
  | [] => Except.ok []
  | r :: rs =>
    match r.url with
    | none => Except.error (PyErr.attributeError "NoneType object has no attribute startswith")
    | some u =>
      if pyStartsWith u "https://sparta.aerospace.org/countermeasures/references/" then
        match r.external_id with
        | none => Except.error (PyErr.attributeError "NoneType object has no attribute replace")
        | some eid =>
          match nistTriples sparta_id rs with
          | Except.error e => Except.error e
          | Except.ok ts =>
            Except.ok
              (Triple.mk (d3f sparta_id) (d3f "related")
                (RDFNode.uri (d3f ("NIST_SP_800-53_R5_"
                  ++ pyReplace (pyReplace eid "(" "_") ")" ""))) :: ts)
      else nistTriples sparta_id rs

/-- `add_countermeasure_to_graph(src, g, d3fend_graph, countermeasure)`: the
triples added to `g`, in emission order, or the Python exception that aborts
the call.  The `d3fend_graph` argument is received but never read. -/
def add_countermeasure_to_graph (src : MemoryStore) (d3fend_graph : Finset Triple)
    (cm : Record) : Except PyErr (List Triple) :=
  match get_sparta_id cm with
  | Except.error e => Except.error e
  | Except.ok none => Except.ok []
  | Except.ok (some sparta_id) =>
    match cm.external_references with
    | none => Except.error (PyErr.keyError "external_references")
    | some refs =>
      match pyURIRef (findSpartaUrl refs) with
      | Except.error e => Except.error e
      | Except.ok urlNode =>
        match cmRelTriples src sparta_id (src.relationshipsOf cm) with
        | Except.error e => Except.error e
        | Except.ok relTs =>
          match nistTriples sparta_id refs with
          | Except.error e => Except.error e
          | Except.ok nistTs =>
            Except.ok
              ([Triple.mk (d3f sparta_id) rdfType (RDFNode.uri (d3f "SPARTACountermeasure")),
                Triple.mk (d3f sparta_id) rdfType (RDFNode.uri owlNamedIndividual),
                Triple.mk (d3f sparta_id) rdfsLabel (RDFNode.lit cm.name),
                Triple.mk (d3f sparta_id) rdfsSeeAlso urlNode,
                Triple.mk (d3f sparta_id) (d3f "definition") (RDFNode.lit cm.description),
                Triple.mk (d3f sparta_id) (d3f "sparta-id") (RDFNode.lit sparta_id)]
               ++ relTs ++ nistTs)

/-- Any reference with `source_name == "sparta"`. -/
def hasSpartaRef (rec : Record) : Bool :=
  (rec.external_references.getD []).any (fun r => r.source_name == some "sparta")

/-- Any reference whose `url` contains `sub` (the stix2 `contains` filter on
`external_references.url`). -/
def urlContains (sub : String) (rec : Record) : Bool :=
  (rec.external_references.getD []).any (fun r =>
    match r.url with
    | some u => isSubstrOf sub u
    | none => false)

/-- Any kill-chain phase with `kill_chain_name == "sparta"`. -/
def hasSpartaKillChain (rec : Record) : Bool :=
  (rec.kill_chain_phases.getD []).any (fun p => p.kill_chain_name == "sparta")

/-- The technique selection query of `get_sparta_graph`. -/
def selectTechniques (src : MemoryStore) : List Record :=
  src.objects.filter (fun r =>
    r.type == "attack-pattern" && hasSpartaRef r
      && urlContains "https://sparta.aerospace.org/technique/" r
      && hasSpartaKillChain r)

/-- The threat selection of `get_sparta_graph`: the query plus the
comprehension keeping only records with no `kill_chain_phases` key. -/
def selectThreats (src : MemoryStore) : List Record :=
  (src.objects.filter (fun r =>
    r.type == "attack-pattern" && hasSpartaRef r
      && urlContains "https://sparta.aerospace.org/related-work/threats/" r)).filter
    (fun r => r.kill_chain_phases == none)

/-- The countermeasure selection query of `get_sparta_graph`. -/
def selectCountermeasures (src : MemoryStore) : List Record :=
  src.objects.filter (fun r => r.type == "course-of-action" && hasSpartaRef r)

/-- Run a translator over a list of records, concatenating the emitted
triples; the first Python exception aborts the whole run. -/
def translateList (f : Record → Except PyErr (List Triple)) :
    List Record → Except PyErr (List Triple)
  | [] => Except.ok []
  | r :: rs =>
    match f r with
    | Except.error e => Except.error e
    | Except.ok ts =>
      match translateList f rs with
      | Except.error e => Except.error e
      | Except.ok ts2 => Except.ok (ts ++ ts2)

/-- `get_sparta_graph(sparta_path, d3fend_graph)`: the fresh graph built by
running the three translators over the three selected record subsets. -/
def get_sparta_graph (src : MemoryStore) (d3fend_graph : Finset Triple) :
    Except PyErr (List Triple) :=
  match translateList (fun t => add_technique_to_graph src t) (selectTechniques src) with
  | Except.error e => Except.error e
  | Except.ok ts1 =>
    match translateList (fun t => add_threat_to_graph src t) (selectThreats src) with
    | Except.error e => Except.error e
    | Except.ok ts2 =>
      match translateList (fun c => add_countermeasure_to_graph src d3fend_graph c)
          (selectCountermeasures src) with
      | Except.error e => Except.error e
      | Except.ok ts3 => Except.ok (ts1 ++ ts2 ++ ts3)

/-- One run of `main`: parse the persisted external graph (a triple set),
build the fresh SPARTA graph from the unchanged store, union the fresh graph
into the external graph (`d3fend_graph += sparta_graph`), and serialize the
result, which the next run parses back. -/
def mainStep (src : MemoryStore) (d3fend_graph : Finset Triple) :
    Except PyErr (Finset Triple) :=
  match get_sparta_graph src d3fend_graph with
  | Except.error e => Except.error e
  | Except.ok g => Except.ok (d3fend_graph ∪ g.toFinset)

/-! Concrete inputs used by the witness and counterexample theorems below. -/

/-- A dotted-id SPARTA technique record (it also carries a kill-chain phase,
to show the dotted branch ignores it). -/
def w1tech : Record :=
  Record.mk "attack-pattern--0001" "attack-pattern" " Example Tech " "a description"
    (some [Ref.mk (some "sparta") (some "REC-0001.01")
      (some "https://sparta.aerospace.org/technique/REC-0001/01")])
    (some [KillChainPhase.mk "sparta" "Reconnaissance"]) none

/-- A store holding just `w1tech`. -/
def w1store : MemoryStore := MemoryStore.mk [w1tech] []

/-- The triples `add_technique_to_graph` emits for `w1tech`. -/
def w1ts : List Triple := (add_technique_to_graph w1store w1tech).toOption.getD []

/-- The persisted graph after one driver run over `w1store` from an empty
external graph. -/
def g9 : Finset Triple := w1ts.toFinset

/-- A SPARTA threat whose defense-in-depth layer `"Orbital"` is not a key of
`aerospace_did_layer_to_threat`. -/
def cx2threat : Record :=
  Record.mk "attack-pattern--0002" "attack-pattern" "Bad Layer Threat" "threat text"
    (some [Ref.mk (some "sparta") (some "TA0001")
      (some "https://sparta.aerospace.org/related-work/threats/TA0001")])
    none (some "Orbital")

/-- A store holding just `cx2threat`. -/
def cx2store : MemoryStore := MemoryStore.mk [cx2threat] []

/-- A relationship target record with an empty external-reference list. -/
def cx3target : Record :=
  Record.mk "attack-pattern--bad" "attack-pattern" "No Refs Target" "text"
    (some []) none none

/-- A healthy relationship target, giving the threat a second edge that the
translator would emit after the failing one. -/
def cx3good : Record :=
  Record.mk "attack-pattern--good" "attack-pattern" "Good Target" "text"
    (some [Ref.mk (some "sparta") (some "TEC-0009")
      (some "https://sparta.aerospace.org/technique/TEC-0009")])
    none none

/-- A threat with a valid layer and two relationships, the first of which
points at `cx3target`. -/
def cx3threat : Record :=
  Record.mk "attack-pattern--0003" "attack-pattern" "Rel Threat" "threat text"
    (some [Ref.mk (some "sparta") (some "TA0002")
      (some "https://sparta.aerospace.org/related-work/threats/TA0002")])
    none (some "Data")

/-- A countermeasure with one relationship pointing at `cx3target`. -/
def cx3cm : Record :=
  Record.mk "course-of-action--0003" "course-of-action" "Rel Countermeasure" "cm text"
    (some [Ref.mk (some "sparta") (some "CM0005")
      (some "https://sparta.aerospace.org/countermeasures/CM0005")])
    none none

/-- The store for the missing-target-reference scenarios. -/
def cx3store : MemoryStore :=
  MemoryStore.mk [cx3threat, cx3target, cx3good, cx3cm]
    [SRel.mk "attack-pattern--0003" "attack-pattern--bad",
     SRel.mk "attack-pattern--0003" "attack-pattern--good",
     SRel.mk "course-of-action--0003" "attack-pattern--bad"]

/-- A threat with a single relationship pointing at the reference-less
target, for the amended-claim witness. -/
def w3threat : Record :=
  Record.mk "attack-pattern--0013" "attack-pattern" "Witness Threat" "threat text"
    (some [Ref.mk (some "sparta") (some "TA0003")
      (some "https://sparta.aerospace.org/related-work/threats/TA0003")])
    none (some "Ground")

/-- A countermeasure with a single relationship pointing at the
reference-less target, for the amended-claim witness. -/
def w3cm : Record :=
  Record.mk "course-of-action--0013" "course-of-action" "Witness Countermeasure" "cm text"
    (some [Ref.mk (some "sparta") (some "CM0006")
      (some "https://sparta.aerospace.org/countermeasures/CM0006")])
    none none

/-- The store for the amended-claim witness of the missing-reference
scenario. -/
def w3store : MemoryStore :=
  MemoryStore.mk [w3threat, w3cm, cx3target]
    [SRel.mk "attack-pattern--0013" "attack-pattern--bad",
     SRel.mk "course-of-action--0013" "attack-pattern--bad"]

/-- The sentinel countermeasure `CM0000`. -/
def cm4a : Record :=
  Record.mk "course-of-action--a" "course-of-action" "Excluded Sentinel" "catch-all"
    (some [Ref.mk (some "sparta") (some "CM0000")
      (some "https://sparta.aerospace.org/countermeasures/CM0000")])
    none none

/-- An ordinary countermeasure `CM0012`. -/
def cm4b : Record :=
  Record.mk "course-of-action--b" "course-of-action" "Ordinary Countermeasure" "cm text"
    (some [Ref.mk (some "sparta") (some "CM0012")
      (some "https://sparta.aerospace.org/countermeasures/CM0012")])
    none none

/-- A same-domain SPARTA technique target (no D3FEND reference). -/
def tgt4 : Record :=
  Record.mk "attack-pattern--t4" "attack-pattern" "Target Technique" "text"
    (some [Ref.mk (some "sparta") (some "REC-0005")
      (some "https://sparta.aerospace.org/technique/REC-0005")])
    none none

/-- The store for the sentinel scenario: both countermeasures relate to the
same technique. -/
def st4 : MemoryStore :=
  MemoryStore.mk [cm4a, cm4b, tgt4]
    [SRel.mk "course-of-action--a" "attack-pattern--t4",
     SRel.mk "course-of-action--b" "attack-pattern--t4"]

/-- The triples emitted for the sentinel countermeasure. -/
def ts4a : List Triple := (add_countermeasure_to_graph st4 ∅ cm4a).toOption.getD []

/-- The triples emitted for the ordinary countermeasure. -/
def ts4b : List Triple := (add_countermeasure_to_graph st4 ∅ cm4b).toOption.getD []

/-- A countermeasure carrying a NIST control external reference with
external-id `"AC-4(1)"`. -/
def cm5 : Record :=
  Record.mk "course-of-action--0005" "course-of-action" "Control Mapped" "cm text"
    (some [Ref.mk (some "sparta") (some "CM0012")
      (some "https://sparta.aerospace.org/countermeasures/CM0012"),
      Ref.mk (some "NIST SP 800-53 Rev 5") (some "AC-4(1)")
      (some "https://sparta.aerospace.org/countermeasures/references/AC-4(1)")])
    none none

/-- A store holding just `cm5`. -/
def st5 : MemoryStore := MemoryStore.mk [cm5] []

/-- The triples emitted for `cm5`. -/
def ts5 : List Triple := (add_countermeasure_to_graph st5 ∅ cm5).toOption.getD []

/-- A record whose only sparta reference lacks an `external_id`. -/
def rec6 : Record :=
  Record.mk "attack-pattern--0006" "attack-pattern" "No Id" "text"
    (some [Ref.mk (some "sparta") none none]) none none

/-- A record whose only sparta reference is D3-prefixed, so the resolver
returns the absent marker. -/
def rec6b : Record :=
  Record.mk "attack-pattern--0006b" "attack-pattern" "Back Reference" "text"
    (some [Ref.mk (some "sparta") (some "D3-T1234") none]) none none

/-- A store holding just `rec6b`. -/
def st6 : MemoryStore := MemoryStore.mk [rec6b] []

/-- A record whose first sparta reference is D3-prefixed and whose second is
an ordinary SPARTA id. -/
def rec7 : Record :=
  Record.mk "attack-pattern--0007" "attack-pattern" "Two Refs" "text"
    (some [Ref.mk (some "sparta") (some "D3-0001") none,
           Ref.mk (some "sparta") (some "REC-0001")
             (some "https://sparta.aerospace.org/technique/REC-0001")])
    none none

/-- A record whose sparta reference resolves an id but carries no `url`. -/
def rec8 : Record :=
  Record.mk "attack-pattern--0008" "attack-pattern" "No Url" "text"
    (some [Ref.mk (some "sparta") (some "REC-0002") none])
    (some [KillChainPhase.mk "sparta" "Reconnaissance"]) (some "Data")

/-- A store holding just `rec8`. -/
def st8 : MemoryStore := MemoryStore.mk [rec8] []

/-! Helper lemmas. -/

/-- `removeSpaces` distributes over string concatenation. -/
theorem removeSpaces_append (a b : String) :
    removeSpaces (a ++ b) = removeSpaces a ++ removeSpaces b := by
  cases a with
  | mk la =>
    cases b with
    | mk lb =>
      show String.mk ((la ++ lb).filter _) = String.mk (la.filter _ ++ lb.filter _)
      rw [List.filter_append]

/-- Removing the spaces of `"SPARTA" + phase + " Technique"` yields the tag,
the de-spaced phase name and the suffix concatenated. -/
theorem removeSpaces_sparta (ph : String) :
    removeSpaces ("SPARTA" ++ ph ++ " Technique") =
      "SPARTA" ++ removeSpaces ph ++ "Technique" := by
  rw [removeSpaces_append, removeSpaces_append]
  have h1 : removeSpaces "SPARTA" = "SPARTA" := by decide
  have h2 : removeSpaces " Technique" = "Technique" := by decide
  rw [h1, h2]

/-- The countermeasure translator never reads its graph argument, so the
whole fresh-graph construction is independent of the external graph. -/
theorem get_sparta_graph_const (src : MemoryStore) (dg dg2 : Finset Triple) :
    get_sparta_graph src dg = get_sparta_graph src dg2 := rfl

/-- Claim C10: the triples emitted by `add_countermeasure_to_graph` are the
same for any two values of the external-ontology graph argument; the output
depends only on the record store and the record. -/
theorem countermeasure_ignores_external_graph (src : MemoryStore)
    (dg1 dg2 : Finset Triple) (cm : Record) :
    add_countermeasure_to_graph src dg1 cm = add_countermeasure_to_graph src dg2 cm := rfl

/-- Claim C9: running the driver again on unchanged inputs is idempotent:
a second `mainStep` over the graph persisted by the first adds nothing new
under triple-set semantics. -/
theorem driver_idempotent (src : MemoryStore) (e1 e2 : Finset Triple)
    (h : mainStep src e1 = Except.ok e2) : mainStep src e2 = Except.ok e2 := by
  unfold mainStep at h ⊢
  rw [get_sparta_graph_const src e2 e1]
  cases hg : get_sparta_graph src e1 with
  | error e =>
    rw [hg] at h
    exact absurd h (by simp)
  | ok g =>
    rw [hg] at h
    simp only at h ⊢
    injection h with h2
    rw [← h2, Finset.union_assoc, Finset.union_self]

/-- Witness for C9 at a one-technique store: the first run from the empty
graph persists `g9`, and a second run over `g9` returns `g9` unchanged. -/
theorem driver_idempotent_witness : mainStep w1store g9 = Except.ok g9 :=
  driver_idempotent w1store ∅ g9 (by decide)

/-- The subclass-of triples of a technique, characterized: exactly the dotted
parent edge when the id is dotted, else one edge per kill-chain phase. -/
theorem filter_subclass_tech (sid : String) (tech : Record) :
    List.filter (fun t => t.p == rdfsSubClassOf) (techSubClassTriples sid tech) =
      if hasDot sid then
        [Triple.mk (d3f sid) rdfsSubClassOf (RDFNode.uri (d3f (beforeFirstDot sid)))]
      else
        (tech.kill_chain_phases.getD []).map (fun obj =>
          Triple.mk (d3f sid) rdfsSubClassOf
            (RDFNode.uri (d3f ("SPARTA" ++ removeSpaces obj.phase_name ++ "Technique")))) := by
  unfold techSubClassTriples
  cases hd : hasDot sid with
  | true =>
    simp [List.filter]
  | false =>
    simp only [Bool.false_eq_true, if_false, List.filter_map]
    have hcomp :
        ((fun t => t.p == rdfsSubClassOf) ∘ (fun obj : KillChainPhase =>
          Triple.mk (d3f sid) rdfsSubClassOf
            (RDFNode.uri (d3f (removeSpaces ("SPARTA" ++ obj.phase_name ++ " Technique")))))) =
          fun _ => true := by
      funext obj
      simp
    rw [hcomp, List.filter_true]
    apply List.map_congr_left
    intro obj _
    rw [removeSpaces_sparta]

/-- Claim C1: for a technique whose resolved id contains a dot, exactly one
subclass-of edge is emitted, to the URI of the text before the first dot,
whatever the kill-chain phases are; otherwise one subclass-of edge per
kill-chain phase, to the URI of the class named by the domain tag, the
de-spaced phase name and the suffix `Technique`. -/
theorem technique_subclass_edges (src : MemoryStore) (tech : Record) (sid : String)
    (ts : List Triple)
    (h1 : get_sparta_id tech = Except.ok (some sid))
    (h2 : add_technique_to_graph src tech = Except.ok ts) :
    ts.filter (fun t => t.p == rdfsSubClassOf) =
      if hasDot sid then
        [Triple.mk (d3f sid) rdfsSubClassOf (RDFNode.uri (d3f (beforeFirstDot sid)))]
      else
        (tech.kill_chain_phases.getD []).map (fun obj =>
          Triple.mk (d3f sid) rdfsSubClassOf
            (RDFNode.uri (d3f ("SPARTA" ++ removeSpaces obj.phase_name ++ "Technique")))) := by
  unfold add_technique_to_graph at h2
  rw [h1] at h2
  cases hrefs : tech.external_references with
  | none =>
    rw [hrefs] at h2
    exact absurd h2 (by simp)
  | some refs =>
    rw [hrefs] at h2
    simp only at h2
    cases hu : pyURIRef (findSpartaUrl refs) with
    | error e =>
      rw [hu] at h2
      exact absurd h2 (by simp)
    | ok urlNode =>
      rw [hu] at h2
      simp only at h2
      injection h2 with h3
      subst h3
      rw [List.filter_append]
      have hbase : List.filter (fun t => t.p == rdfsSubClassOf)
          [Triple.mk (d3f sid) rdfType (RDFNode.uri (d3f "SPARTATechnique")),
           Triple.mk (d3f sid) rdfType (RDFNode.uri owlClass),
           Triple.mk (d3f sid) rdfType (RDFNode.uri owlNamedIndividual),
           Triple.mk (d3f sid) rdfsLabel (RDFNode.lit (pyStrip tech.name ++ " - SPARTA")),
           Triple.mk (d3f sid) rdfsSeeAlso urlNode,
           Triple.mk (d3f sid) (d3f "definition") (RDFNode.lit tech.description),
           Triple.mk (d3f sid) (d3f "sparta-id") (RDFNode.lit sid)] = [] := by
        simp [List.filter, rdfType, rdfsLabel, rdfsSeeAlso, rdfsSubClassOf, d3f, d3fNS]
      rw [hbase, List.nil_append, filter_subclass_tech]

/-- Witness for C1 at the dotted technique `w1tech`: its only subclass-of
edge targets `REC-0001`, even though a kill-chain phase is present. -/
theorem technique_subclass_edges_witness :
    List.filter (fun t => t.p == rdfsSubClassOf) w1ts =
      if hasDot "REC-0001.01" then
        [Triple.mk (d3f "REC-0001.01") rdfsSubClassOf
          (RDFNode.uri (d3f (beforeFirstDot "REC-0001.01")))]
      else
        (w1tech.kill_chain_phases.getD []).map (fun obj =>
          Triple.mk (d3f "REC-0001.01") rdfsSubClassOf
            (RDFNode.uri (d3f ("SPARTA" ++ removeSpaces obj.phase_name ++ "Technique")))) :=
  technique_subclass_edges w1store w1tech "REC-0001.01" w1ts (by decide) (by decide)

/-- Claim C2 (amended): a threat whose defense-in-depth layer value is not a
key of `aerospace_did_layer_to_threat` fails fatally: the translator raises
an unhandled `KeyError` whose payload is the unrecognized layer value, so no
subclass-of edge is silently skipped, but the surfaced error does not name
the threat identifier or the field. -/
theorem threat_unknown_layer_fatal (src : MemoryStore) (threat : Record)
    (sid layer : String) (refs : List Ref)
    (h1 : get_sparta_id threat = Except.ok (some sid))
    (h2 : threat.external_references = some refs)
    (h3 : findSpartaUrl refs ≠ none)
    (h4 : threat.x_aerospace_did_layer = some layer)
    (h5 : aerospace_did_layer_to_threat layer = none) :
    add_threat_to_graph src threat = Except.error (PyErr.keyError layer) := by
  unfold add_threat_to_graph
  rw [h1, h2]
  simp only
  cases hu : findSpartaUrl refs with
  | none => exact absurd hu h3
  | some u =>
    simp only [pyURIRef]
    rw [h4]
    simp only
    rw [h5]

/-- Witness for the amended C2 at the concrete threat `TA0001` with layer
`"Orbital"`. -/
theorem threat_unknown_layer_fatal_witness :
    add_threat_to_graph cx2store cx2threat = Except.error (PyErr.keyError "Orbital") :=
  threat_unknown_layer_fatal cx2store cx2threat "TA0001" "Orbital"
    [Ref.mk (some "sparta") (some "TA0001")
      (some "https://sparta.aerospace.org/related-work/threats/TA0001")]
    (by decide) (by decide) (by decide) (by decide) (by decide)

/-- Counterexample for C2 as stated: at the threat with identifier `TA0001`
and layer `"Orbital"` the run aborts with `KeyError "Orbital"`, and the error
payload contains neither the threat identifier nor the field name. -/
theorem threat_unknown_layer_error_content :
    add_threat_to_graph cx2store cx2threat = Except.error (PyErr.keyError "Orbital") ∧
    isSubstrOf "TA0001" "Orbital" = false ∧
    isSubstrOf "x_aerospace_did_layer" "Orbital" = false := by
  exact ⟨by decide, by decide, by decide⟩

/-- Claim C3 (amended): a relationship target with no external references
aborts the record and the run with an unhandled `IndexError`; the edge is
not skipped.  Shown for the threat translator and for the countermeasure
translator counters path. -/
theorem missing_target_refs_abort :
    (∀ (src : MemoryStore) (threat : Record) (sid layer cls : String) (refs : List Ref)
        (rel : SRel) (rest : List SRel) (target : Record),
        get_sparta_id threat = Except.ok (some sid) →
        threat.external_references = some refs →
        findSpartaUrl refs ≠ none →
        threat.x_aerospace_did_layer = some layer →
        aerospace_did_layer_to_threat layer = some cls →
        src.relationshipsOf threat = rel :: rest →
        src.getObj rel.target_ref = some target →
        target.external_references = some [] →
        add_threat_to_graph src threat = Except.error PyErr.indexError) ∧
    (∀ (src : MemoryStore) (dg : Finset Triple) (cm : Record) (sid : String)
        (refs : List Ref) (rel : SRel) (rest : List SRel) (target : Record),
        get_sparta_id cm = Except.ok (some sid) →
        cm.external_references = some refs →
        findSpartaUrl refs ≠ none →
        src.relationshipsOf cm = rel :: rest →
        src.getObj rel.target_ref = some target →
        target.external_references = some [] →
        target.type = "attack-pattern" →
        sid ≠ "CM0000" →
        add_countermeasure_to_graph src dg cm = Except.error PyErr.indexError) := by
  constructor
  · intro src threat sid layer cls refs rel rest target h1 h2 h3 h4 h5 h6 h7 h8
    unfold add_threat_to_graph
    rw [h1, h2]
    simp only
    cases hu : findSpartaUrl refs with
    | none => exact absurd hu h3
    | some u =>
      simp only [pyURIRef]
      rw [h4]
      simp only
      rw [h5]
      simp only
      rw [h6]
      have hrel : threatRelTriples src sid (rel :: rest) = Except.error PyErr.indexError := by
        unfold threatRelTriples
        rw [h7]
        simp only
        unfold firstRefExternalId
        rw [h8]
      rw [hrel]
  · intro src dg cm sid refs rel rest target h1 h2 h3 h6 h7 h8 h9 h10
    unfold add_countermeasure_to_graph
    rw [h1, h2]
    simp only
    cases hu : findSpartaUrl refs with
    | none => exact absurd hu h3
    | some u =>
      simp only [pyURIRef]
      rw [h6]
      have hrel : cmRelTriples src sid (rel :: rest) = Except.error PyErr.indexError := by
        unfold cmRelTriples
        rw [h7]
        simp only
        rw [h8]
        simp only [findD3FENDId]
        rw [if_pos ⟨h9, h10⟩]
        unfold firstRefExternalId
        rw [h8]
      rw [hrel]

/-- Witness for the amended C3 at the concrete store `w3store`. -/
theorem missing_target_refs_abort_witness :
    add_threat_to_graph w3store w3threat = Except.error PyErr.indexError ∧
    add_countermeasure_to_graph w3store ∅ w3cm = Except.error PyErr.indexError :=
  ⟨missing_target_refs_abort.1 w3store w3threat "TA0003" "Ground" "GroundThreat"
      [Ref.mk (some "sparta") (some "TA0003")
        (some "https://sparta.aerospace.org/related-work/threats/TA0003")]
      (SRel.mk "attack-pattern--0013" "attack-pattern--bad") [] cx3target
      (by decide) (by decide) (by decide) (by decide) (by decide) (by decide)
      (by decide) (by decide),
   missing_target_refs_abort.2 w3store ∅ w3cm "CM0006"
      [Ref.mk (some "sparta") (some "CM0006")
        (some "https://sparta.aerospace.org/countermeasures/CM0006")]
      (SRel.mk "course-of-action--0013" "attack-pattern--bad") [] cx3target
      (by decide) (by decide) (by decide) (by decide) (by decide) (by decide)
      (by decide) (by decide)⟩

/-- Counterexample for C3 as stated: the threat `TA0002` has a first
relationship whose target has an empty reference list and a second, healthy
relationship; the translator does not skip the first edge and continue — it
aborts with `IndexError` (same for the countermeasure `CM0005`). -/
theorem missing_target_refs_not_skipped :
    add_threat_to_graph cx3store cx3threat = Except.error PyErr.indexError ∧
    add_countermeasure_to_graph cx3store ∅ cx3cm = Except.error PyErr.indexError := by
  exact ⟨by decide, by decide⟩

/-- Every triple produced by the NIST-control loop carries the `related`
predicate. -/
theorem nist_all_related (sid : String) (refs : List Ref) (nts : List Triple)
    (h : nistTriples sid refs = Except.ok nts) : ∀ t ∈ nts, t.p = d3f "related" := by
  induction refs generalizing nts with
  | nil =>
    unfold nistTriples at h
    injection h with h2
    subst h2
    intro t ht
    cases ht
  | cons r rs ih =>
    unfold nistTriples at h
    cases hu : r.url with
    | none =>
      rw [hu] at h
      simp at h
    | some u =>
      rw [hu] at h
      simp only at h
      by_cases hs : pyStartsWith u "https://sparta.aerospace.org/countermeasures/references/" = true
      · rw [if_pos hs] at h
        cases he : r.external_id with
        | none =>
          rw [he] at h
          simp at h
        | some eid =>
          rw [he] at h
          simp only at h
          cases hn : nistTriples sid rs with
          | error e =>
            rw [hn] at h
            simp at h
          | ok ts2 =>
            rw [hn] at h
            simp only at h
            injection h with h2
            subst h2
            intro t ht
            rcases List.mem_cons.mp ht with h3 | h3
            · subst h3; rfl
            · exact ih ts2 hn t h3
      · rw [if_neg hs] at h
        exact ih nts h

/-- The countermeasure relationship loop on an empty list emits nothing. -/
theorem cmRelTriples_nil (src : MemoryStore) (sid : String) :
    cmRelTriples src sid [] = Except.ok [] := rfl

/-- Claim C4: for a countermeasure whose single relationship targets a
same-domain technique (an `attack-pattern` with no D3FEND reference), no
`counters` edge is emitted when the countermeasure id is the sentinel
`CM0000`, and exactly one `counters` edge to the URI of that technique is emitted
for any other id. -/
theorem countermeasure_counters_sentinel (src : MemoryStore) (dg : Finset Triple)
    (cm target : Record) (sid eid : String) (refs trefs : List Ref) (rel : SRel)
    (ts : List Triple)
    (h1 : get_sparta_id cm = Except.ok (some sid))
    (h2 : cm.external_references = some refs)
    (h3 : src.relationshipsOf cm = [rel])
    (h4 : src.getObj rel.target_ref = some target)
    (h5 : target.external_references = some trefs)
    (h6 : findD3FENDId trefs = Except.ok none)
    (h7 : target.type = "attack-pattern")
    (h8 : firstRefExternalId target = Except.ok eid)
    (h9 : add_countermeasure_to_graph src dg cm = Except.ok ts) :
    ts.filter (fun t => t.p == d3f "counters") =
      if sid = "CM0000" then []
      else [Triple.mk (d3f sid) (d3f "counters") (RDFNode.uri (d3f eid))] := by
  have hrel : cmRelTriples src sid (src.relationshipsOf cm) =
      Except.ok (if sid = "CM0000" then []
        else [Triple.mk (d3f sid) (d3f "counters") (RDFNode.uri (d3f eid))]) := by
    rw [h3]
    unfold cmRelTriples
    rw [h4]
    simp only
    rw [h5]
    simp only
    rw [h6]
    simp only
    by_cases hsid : sid = "CM0000"
    · rw [if_neg (fun hc => hc.2 hsid), if_pos hsid]
      exact cmRelTriples_nil src sid
    · rw [if_pos ⟨h7, hsid⟩, h8]
      simp only
      rw [cmRelTriples_nil]
      simp only
      rw [if_neg hsid]
  unfold add_countermeasure_to_graph at h9
  rw [h1, h2] at h9
  simp only at h9
  cases hu : pyURIRef (findSpartaUrl refs) with
  | error e =>
    rw [hu] at h9
    exact absurd h9 (by simp)
  | ok urlNode =>
    rw [hu] at h9
    simp only at h9
    rw [hrel] at h9
    simp only at h9
    cases hn : nistTriples sid refs with
    | error e =>
      rw [hn] at h9
      exact absurd h9 (by simp)
    | ok nts =>
      rw [hn] at h9
      simp only at h9
      injection h9 with h10
      subst h10
      rw [List.filter_append, List.filter_append]
      have hbase : List.filter (fun t => t.p == d3f "counters")
          [Triple.mk (d3f sid) rdfType (RDFNode.uri (d3f "SPARTACountermeasure")),
           Triple.mk (d3f sid) rdfType (RDFNode.uri owlNamedIndividual),
           Triple.mk (d3f sid) rdfsLabel (RDFNode.lit cm.name),
           Triple.mk (d3f sid) rdfsSeeAlso urlNode,
           Triple.mk (d3f sid) (d3f "definition") (RDFNode.lit cm.description),
           Triple.mk (d3f sid) (d3f "sparta-id") (RDFNode.lit sid)] = [] := by
        simp [List.filter, rdfType, rdfsLabel, rdfsSeeAlso, d3f, d3fNS]
      have hnist : List.filter (fun t => t.p == d3f "counters") nts = [] := by
        rw [List.filter_eq_nil_iff]
        intro t ht
        rw [nist_all_related sid refs nts hn t ht]
        simp [d3f, d3fNS]
      have hcnt : List.filter (fun t => t.p == d3f "counters")
          (if sid = "CM0000" then []
            else [Triple.mk (d3f sid) (d3f "counters") (RDFNode.uri (d3f eid))]) =
          (if sid = "CM0000" then []
            else [Triple.mk (d3f sid) (d3f "counters") (RDFNode.uri (d3f eid))]) := by
        by_cases hsid : sid = "CM0000"
        · rw [if_pos hsid]
          rfl
        · rw [if_neg hsid]
          simp [List.filter]
      rw [hbase, hnist, hcnt, List.nil_append, List.append_nil]

/-- Witness for C4: in `st4` the sentinel `CM0000` yields no counters edge
while `CM0012` yields exactly one, both against the same target technique. -/
theorem countermeasure_counters_sentinel_witness :
    (List.filter (fun t => t.p == d3f "counters") ts4a =
      if "CM0000" = "CM0000" then []
      else [Triple.mk (d3f "CM0000") (d3f "counters") (RDFNode.uri (d3f "REC-0005"))]) ∧
    (List.filter (fun t => t.p == d3f "counters") ts4b =
      if "CM0012" = "CM0000" then []
      else [Triple.mk (d3f "CM0012") (d3f "counters") (RDFNode.uri (d3f "REC-0005"))]) :=
  ⟨countermeasure_counters_sentinel st4 ∅ cm4a tgt4 "CM0000" "REC-0005"
      (cm4a.external_references.getD []) (tgt4.external_references.getD [])
      (SRel.mk "course-of-action--a" "attack-pattern--t4") ts4a
      (by decide) (by decide) (by decide) (by decide) (by decide) (by decide)
      (by decide) (by decide) (by decide),
   countermeasure_counters_sentinel st4 ∅ cm4b tgt4 "CM0012" "REC-0005"
      (cm4b.external_references.getD []) (tgt4.external_references.getD [])
      (SRel.mk "course-of-action--b" "attack-pattern--t4") ts4b
      (by decide) (by decide) (by decide) (by decide) (by decide) (by decide)
      (by decide) (by decide) (by decide)⟩

/-- A matching control reference contributes its `related` triple to the
output of the NIST-control loop. -/
theorem nist_mem (sid : String) (refs : List Ref) (nts : List Triple) (r : Ref)
    (u eid : String)
    (h : nistTriples sid refs = Except.ok nts)
    (hr : r ∈ refs)
    (hu : r.url = some u)
    (hs : pyStartsWith u "https://sparta.aerospace.org/countermeasures/references/" = true)
    (he : r.external_id = some eid) :
    Triple.mk (d3f sid) (d3f "related")
      (RDFNode.uri (d3f ("NIST_SP_800-53_R5_"
        ++ pyReplace (pyReplace eid "(" "_") ")" ""))) ∈ nts := by
  induction refs generalizing nts with
  | nil => cases hr
  | cons r0 rs ih =>
    unfold nistTriples at h
    rcases List.mem_cons.mp hr with hEq | hMem
    · subst hEq
      rw [hu] at h
      simp only at h
      rw [if_pos hs, he] at h
      simp only at h
      cases hn : nistTriples sid rs with
      | error e =>
        rw [hn] at h
        simp at h
      | ok ts2 =>
        rw [hn] at h
        simp only at h
        injection h with h2
        subst h2
        exact List.mem_cons_self _ _
    · cases hu0 : r0.url with
      | none =>
        rw [hu0] at h
        simp at h
      | some u0 =>
        rw [hu0] at h
        simp only at h
        by_cases hs0 : pyStartsWith u0 "https://sparta.aerospace.org/countermeasures/references/" = true
        · rw [if_pos hs0] at h
          cases he0 : r0.external_id with
          | none =>
            rw [he0] at h
            simp at h
          | some eid0 =>
            rw [he0] at h
            simp only at h
            cases hn : nistTriples sid rs with
            | error e =>
              rw [hn] at h
              simp at h
            | ok ts2 =>
              rw [hn] at h
              simp only at h
              injection h with h2
              subst h2
              exact List.mem_cons_of_mem _ (ih ts2 hn hMem)
        · rw [if_neg hs0] at h
          exact ih nts h hMem

/-- Claim C5 (amended): a countermeasure external reference whose url starts
with the control-reference prefix yields a `related` edge to the control URI
built from the fixed prefix plus the external-id with `"("` rewritten to an
underscore and `")"` deleted (so `AC-4(1)` yields the suffix `AC-4_1`, with
no trailing underscore). -/
theorem nist_related_edge (src : MemoryStore) (dg : Finset Triple) (cm : Record)
    (sid u eid : String) (refs : List Ref) (r : Ref) (ts : List Triple)
    (h1 : get_sparta_id cm = Except.ok (some sid))
    (h2 : cm.external_references = some refs)
    (h3 : r ∈ refs)
    (h4 : r.url = some u)
    (h5 : pyStartsWith u "https://sparta.aerospace.org/countermeasures/references/" = true)
    (h6 : r.external_id = some eid)
    (h7 : add_countermeasure_to_graph src dg cm = Except.ok ts) :
    Triple.mk (d3f sid) (d3f "related")
      (RDFNode.uri (d3f ("NIST_SP_800-53_R5_"
        ++ pyReplace (pyReplace eid "(" "_") ")" ""))) ∈ ts := by
  unfold add_countermeasure_to_graph at h7
  rw [h1, h2] at h7
  simp only at h7
  cases hu : pyURIRef (findSpartaUrl refs) with
  | error e =>
    rw [hu] at h7
    exact absurd h7 (by simp)
  | ok urlNode =>
    rw [hu] at h7
    simp only at h7
    cases hrel : cmRelTriples src sid (src.relationshipsOf cm) with
    | error e =>
      rw [hrel] at h7
      exact absurd h7 (by simp)
    | ok relTs =>
      rw [hrel] at h7
      simp only at h7
      cases hn : nistTriples sid refs with
      | error e =>
        rw [hn] at h7
        exact absurd h7 (by simp)
      | ok nts =>
        rw [hn] at h7
        simp only at h7
        injection h7 with h8
        subst h8
        exact List.mem_append_right _ (nist_mem sid refs nts r u eid hn h3 h4 h5 h6)

/-- Witness for the amended C5 at `cm5`, whose control reference has
external-id `AC-4(1)`. -/
theorem nist_related_edge_witness :
    Triple.mk (d3f "CM0012") (d3f "related")
      (RDFNode.uri (d3f ("NIST_SP_800-53_R5_"
        ++ pyReplace (pyReplace "AC-4(1)" "(" "_") ")" ""))) ∈ ts5 :=
  nist_related_edge st5 ∅ cm5 "CM0012"
    "https://sparta.aerospace.org/countermeasures/references/AC-4(1)" "AC-4(1)"
    (cm5.external_references.getD [])
    (Ref.mk (some "NIST SP 800-53 Rev 5") (some "AC-4(1)")
      (some "https://sparta.aerospace.org/countermeasures/references/AC-4(1)"))
    ts5 (by decide) (by decide) (by decide) (by decide) (by decide) (by decide) (by decide)

/-- Counterexample for C5 as stated: for external-id `AC-4(1)` the emitted
control URI ends in `AC-4_1` — the closing parenthesis is deleted, not
rewritten to an underscore, so no `AC-4_1_`-shaped suffix appears. -/
theorem nist_paren_rewrite_shape :
    add_countermeasure_to_graph st5 ∅ cm5 = Except.ok ts5 ∧
    Triple.mk (d3f "CM0012") (d3f "related")
      (RDFNode.uri (d3f "NIST_SP_800-53_R5_AC-4_1")) ∈ ts5 ∧
    ¬ Triple.mk (d3f "CM0012") (d3f "related")
      (RDFNode.uri (d3f "NIST_SP_800-53_R5_AC-4_1_")) ∈ ts5 := by
  exact ⟨by decide, by decide, by decide⟩

/-- When every sparta-sourced reference carries an external-id, the id scan
cannot raise. -/
theorem findSpartaId_ok (refs : List Ref)
    (h : ∀ r ∈ refs, r.source_name = some "sparta" → r.external_id ≠ none) :
    ∃ o, findSpartaId refs = Except.ok o := by
  induction refs with
  | nil => exact ⟨none, rfl⟩
  | cons r rs ih =>
    unfold findSpartaId
    by_cases hsn : r.source_name = some "sparta"
    · rw [if_pos hsn]
      cases he : r.external_id with
      | none => exact absurd he (h r (List.mem_cons_self r rs) hsn)
      | some eid =>
        simp only
        by_cases hd : pyStartsWith eid "D3" = true
        · rw [if_pos hd]
          exact ih (fun r2 hr2 => h r2 (List.mem_cons_of_mem r hr2))
        · rw [if_neg hd]
          exact ⟨some eid, rfl⟩
    · rw [if_neg hsn]
      exact ih (fun r2 hr2 => h r2 (List.mem_cons_of_mem r hr2))

/-- Whatever the id scan returns was a sparta-sourced external-id that does
not start with `D3`. -/
theorem findSpartaId_strict (refs : List Ref) (e : String)
    (h : findSpartaId refs = Except.ok (some e)) :
    pyStartsWith e "D3" = false ∧
    ∃ r ∈ refs, r.source_name = some "sparta" ∧ r.external_id = some e := by
  induction refs with
  | nil =>
    unfold findSpartaId at h
    injection h with h2
    cases h2
  | cons r rs ih =>
    unfold findSpartaId at h
    by_cases hsn : r.source_name = some "sparta"
    · rw [if_pos hsn] at h
      cases he : r.external_id with
      | none =>
        rw [he] at h
        simp at h
      | some eid =>
        rw [he] at h
        simp only at h
        by_cases hd : pyStartsWith eid "D3" = true
        · rw [if_pos hd] at h
          obtain ⟨hns, r2, hr2, hprops⟩ := ih h
          exact ⟨hns, r2, List.mem_cons_of_mem r hr2, hprops⟩
        · rw [if_neg hd] at h
          injection h with h2
          injection h2 with h3
          subst h3
          exact ⟨Bool.eq_false_iff.mpr hd, r, List.mem_cons_self r rs, hsn, he⟩
    · rw [if_neg hsn] at h
      obtain ⟨hns, r2, hr2, hprops⟩ := ih h
      exact ⟨hns, r2, List.mem_cons_of_mem r hr2, hprops⟩

/-- Claim C6 (amended): when the record has an external-reference list in
which every sparta-sourced reference carries an external-id, the resolver
returns an id or the absent marker without raising; when the result is
absent each translator emits no triples.  (Without that proviso the resolver
can raise: a missing list raises `KeyError`, and a sparta reference with no
external-id raises `AttributeError`.) -/
theorem resolver_total_when_wellformed (src : MemoryStore) (dg : Finset Triple)
    (rec : Record) (refs : List Ref)
    (h1 : rec.external_references = some refs)
    (h2 : ∀ r ∈ refs, r.source_name = some "sparta" → r.external_id ≠ none) :
    (∃ o, get_sparta_id rec = Except.ok o) ∧
    (get_sparta_id rec = Except.ok none →
      add_technique_to_graph src rec = Except.ok [] ∧
      add_threat_to_graph src rec = Except.ok [] ∧
      add_countermeasure_to_graph src dg rec = Except.ok []) := by
  constructor
  · unfold get_sparta_id
    rw [h1]
    exact findSpartaId_ok refs h2
  · intro hnone
    refine ⟨?_, ?_, ?_⟩
    · unfold add_technique_to_graph
      rw [hnone]
    · unfold add_threat_to_graph
      rw [hnone]
    · unfold add_countermeasure_to_graph
      rw [hnone]

/-- Witness for the amended C6 at `rec6b`, whose only sparta reference is
D3-prefixed: the resolver returns the absent marker and all three
translators emit nothing. -/
theorem resolver_total_when_wellformed_witness :
    (∃ o, get_sparta_id rec6b = Except.ok o) ∧
    (get_sparta_id rec6b = Except.ok none →
      add_technique_to_graph st6 rec6b = Except.ok [] ∧
      add_threat_to_graph st6 rec6b = Except.ok [] ∧
      add_countermeasure_to_graph st6 ∅ rec6b = Except.ok []) :=
  resolver_total_when_wellformed st6 ∅ rec6b
    [Ref.mk (some "sparta") (some "D3-T1234") none] (by decide) (by decide)

/-- Counterexample for C6 as stated: `rec6` lacks the identifier (its only
sparta reference has no external-id), and the resolver raises
`AttributeError` instead of returning the absent marker. -/
theorem resolver_raises_on_missing_id :
    get_sparta_id rec6 =
      Except.error (PyErr.attributeError "NoneType object has no attribute startswith") := by
  decide

/-- Claim C7 (amended): the resolver has no configuration switch; it always
applies the strict filter: any id it returns is a sparta-sourced external-id
that does not start with the reserved prefix `D3`. -/
theorem resolver_always_strict (rec : Record) (e : String)
    (h : get_sparta_id rec = Except.ok (some e)) :
    pyStartsWith e "D3" = false ∧
    ∃ refs, rec.external_references = some refs ∧
      ∃ r ∈ refs, r.source_name = some "sparta" ∧ r.external_id = some e := by
  unfold get_sparta_id at h
  cases hrefs : rec.external_references with
  | none =>
    rw [hrefs] at h
    exact absurd h (by simp)
  | some refs =>
    rw [hrefs] at h
    obtain ⟨hd, r, hr, hp⟩ := findSpartaId_strict refs e h
    exact ⟨hd, refs, rfl, r, hr, hp⟩

/-- Witness for the amended C7 at `rec7`. -/
theorem resolver_always_strict_witness :
    pyStartsWith "REC-0001" "D3" = false ∧
    ∃ refs, rec7.external_references = some refs ∧
      ∃ r ∈ refs, r.source_name = some "sparta" ∧ r.external_id = some "REC-0001" :=
  resolver_always_strict rec7 "REC-0001" (by decide)

/-- Counterexample for C7 as stated: on `rec7`, whose first sparta reference
has external-id `D3-0001`, the permissive filter would return `D3-0001`; the
code unconditionally skips it and returns `REC-0001`. -/
theorem resolver_skips_d3_prefixed :
    get_sparta_id rec7 = Except.ok (some "REC-0001") ∧
    get_sparta_id rec7 ≠ Except.ok (some "D3-0001") := by
  exact ⟨by decide, by decide⟩

/-- Claim C8 (amended): when no sparta-sourced reference provides a url, the
see-also triple is not silently omitted: each translator builds
`URIRef(None)` and aborts the record with a `TypeError`. -/
theorem seealso_missing_url_raises (src : MemoryStore) (dg : Finset Triple)
    (rec : Record) (sid : String) (refs : List Ref)
    (h1 : get_sparta_id rec = Except.ok (some sid))
    (h2 : rec.external_references = some refs)
    (h3 : findSpartaUrl refs = none) :
    add_technique_to_graph src rec =
      Except.error (PyErr.typeError "argument of type NoneType is not iterable") ∧
    add_threat_to_graph src rec =
      Except.error (PyErr.typeError "argument of type NoneType is not iterable") ∧
    add_countermeasure_to_graph src dg rec =
      Except.error (PyErr.typeError "argument of type NoneType is not iterable") := by
  refine ⟨?_, ?_, ?_⟩
  · unfold add_technique_to_graph
    rw [h1, h2]
    simp only
    rw [h3]
    simp only [pyURIRef]
  · unfold add_threat_to_graph
    rw [h1, h2]
    simp only
    rw [h3]
    simp only [pyURIRef]
  · unfold add_countermeasure_to_graph
    rw [h1, h2]
    simp only
    rw [h3]
    simp only [pyURIRef]

/-- Witness for the amended C8 at `rec8`, whose sparta reference resolves an
id but carries no url. -/
theorem seealso_missing_url_raises_witness :
    add_technique_to_graph st8 rec8 =
      Except.error (PyErr.typeError "argument of type NoneType is not iterable") ∧
    add_threat_to_graph st8 rec8 =
      Except.error (PyErr.typeError "argument of type NoneType is not iterable") ∧
    add_countermeasure_to_graph st8 ∅ rec8 =
      Except.error (PyErr.typeError "argument of type NoneType is not iterable") :=
  seealso_missing_url_raises st8 ∅ rec8 "REC-0002"
    [Ref.mk (some "sparta") (some "REC-0002") none] (by decide) (by decide) (by decide)

/-- Counterexample for C8 as stated: the technique `rec8` has no sparta url,
and instead of omitting the see-also triple and continuing, translation of
the record aborts with a `TypeError`. -/
theorem seealso_missing_url_not_skipped :
    add_technique_to_graph st8 rec8 ≠ Except.ok ((add_technique_to_graph st8 rec8).toOption.getD []) ∧
    add_technique_to_graph st8 rec8 =
      Except.error (PyErr.typeError "argument of type NoneType is not iterable") := by
  exact ⟨by decide, by decide⟩

end UpdateSparta
